import Mathlib

/-!
Shallow embedding of the ztest scan orchestration and aggregation engine.

The definitions below are translated from the JavaScript sources:
  src/index.js            (TEST_CATEGORIES registry, automaticMode, runTests)
  src/src/reporter.js     (Reporter: getSummary, generateLinearReport)
  src/src/monitor.js      (Monitor: loadConfig, loadState, checkUrl, runChecks,
                           sendAlerts, monitor)

Modelling conventions:
  * JS objects with fixed fields become structures; JS strings stay `String`,
    epoch milliseconds become `Nat`, day counts (which can be negative) `Int`.
  * A probe or network invocation is embedded by its outcome: `Except String α`
    (`Except.error` models a thrown exception carrying its message).
  * The `alerts` dedup ledger (a JS object used as a map) is an association
    list `List (String × Nat)` with explicit get/set functions.
  * Console logging (`logger`, `console.log`, spinners) is an advisory side
    effect with no bearing on the computed data and is not modelled.
-/

/-- One finding produced by a probe (the uniform finding model of
reporter.js / the test modules).  `value` is normalised to a string
(JS template interpolation stringifies numbers). -/
structure Finding where
  name : String
  status : String
  value : String
  details : String
  severity : String
  recommendation : Option String
  deriving DecidableEq

/-- One probe's result object (`{ name, tests: [...] }` as produced by each
test function and appended by `Reporter.addResults`). -/
structure CategoryResult where
  name : String
  tests : List Finding
  deriving DecidableEq

/-- The keys of TEST_CATEGORIES (src/index.js lines 41-72) in declaration
order, which is the order `Object.keys` enumerates them. -/
def registryKeys : List String :=
  ["http", "ssl", "security", "browser", "performance", "responsive"]

/-- Category resolution of automaticMode (src/index.js lines 211-220):

    let categories = Object.keys(TEST_CATEGORIES);
    if (options.only) categories = options.only.split(',').filter(c => TEST_CATEGORIES[c]);
    if (options.skip) { const skip = options.skip.split(','); categories = categories.filter(c => !skip.includes(c)); }

The comma-split lists are taken as inputs; `TEST_CATEGORIES[c]` truthiness is
membership in `registryKeys`. -/
def resolveCategories (onlyL? skipL? : Option (List String)) : List String :=
  let categories := registryKeys
  let categories :=
    match onlyL? with
    | some onlyL => onlyL.filter (fun c => registryKeys.contains c)
    | none => categories
  match skipL? with
  | some skipL => categories.filter (fun c => !(skipL.contains c))
  | none => categories

/-- Accumulated scan report state (reporter.js constructor):
url, start/end timestamps (epoch ms) and the ordered `results` list. -/
structure Reporter where
  url : String
  startTime : Option Nat
  endTime : Option Nat
  results : List CategoryResult
  deriving DecidableEq

/-- The five tallies returned by `Reporter.getSummary`. -/
structure Summary where
  critical : Nat
  high : Nat
  medium : Nat
  low : Nat
  passed : Nat
  deriving DecidableEq

/-- The per-finding tally step inside `Reporter.getSummary`
(reporter.js lines 52-59): `passed` counts `status === 'pass'` and,
independently, one of the four severity buckets is bumped. -/
def tallyFinding (s : Summary) (test : Finding) : Summary :=
  let s := if test.status = "pass" then { s with passed := s.passed + 1 } else s
  if test.severity = "critical" then { s with critical := s.critical + 1 }
  else if test.severity = "high" then { s with high := s.high + 1 }
  else if test.severity = "medium" then { s with medium := s.medium + 1 }
  else if test.severity = "low" then { s with low := s.low + 1 }
  else s

/-- `Reporter.getSummary` (reporter.js lines 49-63): a single pass over all
findings of all accumulated category results. -/
def getSummary (rep : Reporter) : Summary :=
  rep.results.foldl (fun s category => category.tests.foldl tallyFinding s)
    ⟨0, 0, 0, 0, 0⟩

/-- All findings of the report in category-then-probe order (the iteration
order of every `results.forEach(category => category.tests.forEach(...))`
loop in reporter.js). -/
def allFindings (rep : Reporter) : List Finding :=
  (rep.results.map CategoryResult.tests).flatten

lemma tallyFinding_passed (s : Summary) (t : Finding) :
    (tallyFinding s t).passed =
      s.passed + (if t.status = "pass" then 1 else 0) := by
  unfold tallyFinding
  split_ifs <;> simp

lemma foldl_tallyFinding_passed (tests : List Finding) (s : Summary) :
    (tests.foldl tallyFinding s).passed =
      s.passed + tests.countP (fun t => t.status = "pass") := by
  induction tests generalizing s with
  | nil => simp [List.countP_nil]
  | cons t rest ih =>
      rw [List.foldl_cons, ih, tallyFinding_passed, List.countP_cons]
      by_cases h : t.status = "pass"
      · simp [h]
        omega
      · simp [h]

lemma getSummary_passed_aux (results : List CategoryResult) (s : Summary) :
    (results.foldl (fun s category => category.tests.foldl tallyFinding s) s).passed =
      s.passed + ((results.map CategoryResult.tests).flatten.countP
        (fun t => t.status = "pass")) := by
  induction results generalizing s with
  | nil => simp [List.countP_nil]
  | cons c rest ih =>
      rw [List.foldl_cons, ih, foldl_tallyFinding_passed]
      simp [List.countP_append]
      omega

/-- C9: the summary's `passed` count equals the number of findings across
all categories whose status is `pass`, independent of each finding's
severity (which is tallied separately and never consulted for `passed`). -/
theorem C9_summary_passed (rep : Reporter) :
    (getSummary rep).passed =
      (allFindings rep).countP (fun t => t.status = "pass") := by
  unfold getSummary allFindings
  rw [getSummary_passed_aux]
  simp

/-- C1 (counterexample): with the filter `--only ssl,http` the resolved list
is `[ssl, http]` — the order the filter named them — while the
registry-order restriction to those keys is `[http, ssl]`.  So the resolved
list is not, in general, in registry relative order. -/
theorem C1_counterexample :
    resolveCategories (some ["ssl", "http"]) none = ["ssl", "http"] ∧
    registryKeys.filter
      (fun k => (["ssl", "http"] : List String).contains k) = ["http", "ssl"] ∧
    resolveCategories (some ["ssl", "http"]) none ≠
      registryKeys.filter
        (fun k => (resolveCategories (some ["ssl", "http"]) none).contains k) := by
  refine ⟨by decide, by decide, by decide⟩

/-- C1 (amended): when no `only` filter is given, the resolved list is a
subsequence of the registry (so `skip` subtracts without reordering and the
full registry order is used by default); when an `only` filter is given, the
resolved list follows the order of the `only` list (restricted to valid
registry keys), with `skip` subtracting without reordering — in particular
it is always a subsequence of the `only` list, not of the registry. -/
theorem C1_amended (onlyL skipL : List String) (skipL? : Option (List String)) :
    List.Sublist (resolveCategories none (some skipL)) registryKeys ∧
    resolveCategories none none = registryKeys ∧
    resolveCategories (some onlyL) none =
      onlyL.filter (fun c => registryKeys.contains c) ∧
    resolveCategories (some onlyL) (some skipL) =
      (onlyL.filter (fun c => registryKeys.contains c)).filter
        (fun c => !(skipL.contains c)) ∧
    List.Sublist (resolveCategories (some onlyL) skipL?) onlyL := by
  refine ⟨?_, rfl, rfl, rfl, ?_⟩
  · show (registryKeys.filter (fun c => !(skipL.contains c))).Sublist registryKeys
    exact List.filter_sublist registryKeys
  · cases skipL? with
    | none => exact List.filter_sublist onlyL
    | some l =>
        exact List.Sublist.trans
          (List.filter_sublist (onlyL.filter (fun c => registryKeys.contains c)))
          (List.filter_sublist onlyL)

/-- One entry of the inner test loop of `runTests` (src/index.js lines 94-109):
a probe invocation either returns a `CategoryResult` or throws, in which case
the orchestrator catches, logs and moves on.  A category in the registry is a
display name plus its ordered probe list; here each probe is embedded by its
invocation outcome against the scanned url. -/
structure ScanCategory where
  name : String
  description : String
  tests : List (Except String CategoryResult)

/-- The orchestration loop of `runTests` (src/index.js lines 87-110):
for each selected category, for each probe (registry order), invoke it; on
success `reporter.addResults(results)` appends, on a thrown error the catch
block logs and the loop continues.  Returns the accumulated `results` list
of the reporter. -/
def runTests (categories : List ScanCategory) : List CategoryResult :=
  categories.foldl
    (fun results category =>
      category.tests.foldl
        (fun results t =>
          match t with
          | Except.ok r => results ++ [r]
          | Except.error _ => results)
        results)
    []

lemma runTests_inner (tests : List (Except String CategoryResult))
    (acc : List CategoryResult) :
    tests.foldl
        (fun results t =>
          match t with
          | Except.ok r => results ++ [r]
          | Except.error _ => results)
        acc =
      acc ++ tests.filterMap Except.toOption := by
  induction tests generalizing acc with
  | nil => simp
  | cons t rest ih =>
      cases t with
      | ok r => simp [ih, Except.toOption]
      | error e => simp [ih, Except.toOption]

lemma runTests_aux (categories : List ScanCategory) (acc : List CategoryResult) :
    categories.foldl
        (fun results category =>
          category.tests.foldl
            (fun results t =>
              match t with
              | Except.ok r => results ++ [r]
              | Except.error _ => results)
            results)
        acc =
      acc ++ (categories.map (fun c => c.tests.filterMap Except.toOption)).flatten := by
  induction categories generalizing acc with
  | nil => simp
  | cons c rest ih =>
      rw [List.foldl_cons, ih, runTests_inner]
      simp

/-- C2: a probe invocation that throws is caught at the orchestrator
boundary and the scan continues: the final report is exactly the
concatenation, in category-then-probe order, of the results of every probe
whose invocation did not throw — the failed probe contributes no entry and
no non-throwing probe's result is dropped.  (The accompanying log line is an
advisory console side effect outside this model.) -/
theorem C2_probe_isolation (categories : List ScanCategory) :
    runTests categories =
      (categories.map (fun c => c.tests.filterMap Except.toOption)).flatten := by
  unfold runTests
  rw [runTests_aux]
  simp

/-- Feature toggles of the monitor config (monitor.js lines 32-37). -/
structure MonitorChecks where
  httpStatus : Bool
  responseTime : Bool
  sslExpiry : Bool
  jsErrors : Bool
  deriving DecidableEq

/-- Numeric thresholds of the monitor config (monitor.js lines 38-41).
`sslExpiryDays` is compared against a possibly negative day count, so the
comparison domain is `Int`. -/
structure MonitorThresholds where
  responseTime : Nat
  sslExpiryDays : Int
  deriving DecidableEq

/-- Persisted monitor configuration (monitor.js loadConfig defaults shape). -/
structure MonitorConfig where
  urls : List String
  teamId : Option String
  assigneeId : String
  checks : MonitorChecks
  thresholds : MonitorThresholds
  deriving DecidableEq

/-- monitor.js line 13: the hard-coded default assignee id. -/
def DEFAULT_ASSIGNEE : String := "09375327-6e18-4035-ac85-233f290392bb"

/-- The default config object returned by `loadConfig` when the config file
is missing or unreadable (monitor.js lines 28-42). -/
def defaultConfig : MonitorConfig :=
  { urls := []
    teamId := none
    assigneeId := DEFAULT_ASSIGNEE
    checks :=
      { httpStatus := true
        responseTime := true
        sslExpiry := true
        jsErrors := false }
    thresholds :=
      { responseTime := 5000
        sslExpiryDays := 14 } }

/-- One entry of `MonitorState.history`: cycle timestamp (ISO string) and the
per-url `(url, status)` pairs (monitor.js lines 261-264). -/
structure HistoryEntry where
  timestamp : String
  results : List (String × String)
  deriving DecidableEq

/-- Persisted monitor state (monitor.js loadState defaults shape).  `alerts`
is the dedup ledger: alert key to epoch ms of last dispatch. -/
structure MonitorState where
  lastCheck : Option String
  alerts : List (String × Nat)
  history : List HistoryEntry
  deriving DecidableEq

/-- The default state object returned by `loadState` when the state file is
missing or unreadable (monitor.js lines 55-59). -/
def defaultState : MonitorState :=
  { lastCheck := none
    alerts := []
    history := [] }

/-- `Monitor.loadConfig` (monitor.js lines 22-43).  The stored file is
embedded as `none` (file absent) or `some outcome` where `outcome` is the
result of reading and JSON-parsing it; the try/catch turns any thrown
read/parse error into the built-in defaults. -/
def loadConfig (stored : Option (Except String MonitorConfig)) : MonitorConfig :=
  match stored with
  | some (Except.ok c) => c
  | some (Except.error _) => defaultConfig
  | none => defaultConfig

/-- `Monitor.loadState` (monitor.js lines 49-60), same reading discipline as
`loadConfig`. -/
def loadState (stored : Option (Except String MonitorState)) : MonitorState :=
  match stored with
  | some (Except.ok s) => s
  | some (Except.error _) => defaultState
  | none => defaultState

/-- C10: loading config or state never throws — a missing file and an
unparsable file both yield the built-in defaults: empty url list, the
hard-coded default assignee, responseTime threshold 5000 ms, sslExpiryDays
threshold 14; lastCheck null, empty alerts map (so a corrupt state file
silently resets the alert-dedup ledger) and empty history. -/
theorem C10_load_defaults :
    loadConfig none = defaultConfig ∧
    (∀ e : String, loadConfig (some (Except.error e)) = defaultConfig) ∧
    loadState none = defaultState ∧
    (∀ e : String, loadState (some (Except.error e)) = defaultState) ∧
    defaultConfig.urls = [] ∧
    defaultConfig.assigneeId = DEFAULT_ASSIGNEE ∧
    defaultConfig.thresholds.responseTime = 5000 ∧
    defaultConfig.thresholds.sslExpiryDays = 14 ∧
    defaultState.lastCheck = none ∧
    defaultState.alerts = [] ∧
    defaultState.history = [] := by
  refine ⟨rfl, fun e => rfl, rfl, fun e => rfl, rfl, rfl, rfl, rfl, rfl, rfl, rfl⟩

/-- A monitor issue (the objects pushed in `Monitor.checkUrl`). -/
structure Issue where
  type : String
  title : String
  description : String
  priority : Nat
  deriving DecidableEq

/-- Alert dedup key (monitor.js line 243):
    const alertKey = url + '-' + issue.type + '-' + issue.title -/
def alertKey (url : String) (issue : Issue) : String :=
  url ++ "-" ++ issue.type ++ "-" ++ issue.title

/-- Lookup in the `alerts` object: `this.state.alerts[alertKey]`. -/
def alertsGet : List (String × Nat) → String → Option Nat
  | [], _ => none
  | (k, v) :: rest, key => if k = key then some v else alertsGet rest key

/-- Property assignment on the `alerts` object:
`this.state.alerts[alertKey] = now`. -/
def alertsSet : List (String × Nat) → String → Nat → List (String × Nat)
  | [], key, v => [(key, v)]
  | (k, w) :: rest, key, v =>
      if k = key then (key, v) :: rest else (k, w) :: alertsSet rest key v

/-- The 4-hour dedup cooldown in milliseconds (monitor.js line 248). -/
def COOLDOWN_MS : Nat := 4 * 60 * 60 * 1000

/-- The dedup guard of monitor.js line 248:
    if (!lastAlert || (now - lastAlert) > 4 * 60 * 60 * 1000)
JS truthiness: `!lastAlert` is true when the key is absent and also when the
stored value is the number 0.  JS `now - lastAlert` can be negative, in which
case it is not above the cooldown; `Nat` subtraction truncates to 0 there,
giving the same verdict. -/
def isNewAlert (lastAlert : Option Nat) (now : Nat) : Bool :=
  match lastAlert with
  | none => true
  | some t0 => t0 = 0 || COOLDOWN_MS < now - t0

/-- The per-url issue dedup loop of `Monitor.runChecks` (monitor.js lines
242-252): each issue of the cycle is appended to `newIssues` (spread with its
url) and its key's timestamp refreshed to `now` when the guard passes,
otherwise suppressed. -/
def processIssues (url : String) (now : Nat) :
    List Issue → List (String × Issue) → List (String × Nat) →
      List (String × Issue) × List (String × Nat)
  | [], newIssues, alerts => (newIssues, alerts)
  | issue :: rest, newIssues, alerts =>
      let key := alertKey url issue
      if isNewAlert (alertsGet alerts key) now then
        processIssues url now rest (newIssues ++ [(url, issue)])
          (alertsSet alerts key now)
      else
        processIssues url now rest newIssues alerts

/-- History truncation of `Monitor.runChecks` (monitor.js lines 261-269):
push this cycle's entry, then keep only the last 100 entries
(`history.slice(-100)` keeps the final 100 elements). -/
def historyAppend (history : List HistoryEntry) (e : HistoryEntry) :
    List HistoryEntry :=
  let h := history ++ [e]
  if h.length > 100 then h.drop (h.length - 100) else h

/-- Per-url outcome of `Monitor.checkUrl` as consumed by `runChecks`:
the url, the cycle status string and the issues produced. -/
structure CheckResult where
  url : String
  status : String
  issues : List Issue
  deriving DecidableEq

/-- `Monitor.runChecks` (monitor.js lines 229-274) given the already-computed
per-url check results (network effects embedded by `checkUrl`'s output):
dedups every issue against the alerts ledger, then updates `lastCheck`,
appends this cycle's `(url, status)` summary to the bounded history and
returns the updated state with the cycle's dispatch batch. -/
def runChecks (urlResults : List CheckResult) (state : MonitorState)
    (now : Nat) (nowIso : String) : MonitorState × List (String × Issue) :=
  let nia := urlResults.foldl
    (fun acc r => processIssues r.url now r.issues acc.1 acc.2)
    ([], state.alerts)
  let history := historyAppend state.history
    ⟨nowIso, urlResults.map (fun r => (r.url, r.status))⟩
  ({ lastCheck := some nowIso, alerts := nia.2, history := history }, nia.1)

lemma alertsGet_set_self (al : List (String × Nat)) (k : String) (v : Nat) :
    alertsGet (alertsSet al k v) k = some v := by
  induction al with
  | nil => simp [alertsSet, alertsGet]
  | cons p rest ih =>
      by_cases h : p.1 = k
      · simp [alertsSet, alertsGet, h]
      · simp [alertsSet, alertsGet, h, ih]

lemma alertsGet_set_other (al : List (String × Nat)) (k k2 : String) (v : Nat)
    (h : k2 ≠ k) : alertsGet (alertsSet al k v) k2 = alertsGet al k2 := by
  have hne : ¬ k = k2 := fun hh => h hh.symm
  induction al with
  | nil => simp [alertsSet, alertsGet, hne]
  | cons p rest ih =>
      obtain ⟨pk, pv⟩ := p
      by_cases hk : pk = k
      · subst hk
        simp [alertsSet, alertsGet, hne]
      · by_cases hk2 : pk = k2
        · simp [alertsSet, alertsGet, hk, hk2, h]
        · simp [alertsSet, alertsGet, hk, hk2, ih]

/-- C3: the alert dedup decision of a monitoring cycle, for a single issue of
a checked url with dedup key built from (url, issue.type, issue.title): if
the key is absent from the alerts ledger, or its stored (positive epoch-ms)
timestamp is more than 4 hours before `now`, the issue joins the dispatch
batch and the key is refreshed to `now`; otherwise it is suppressed and the
ledger is untouched.  In particular, with the key stored at T0, the same
issue at T0 + 3h is suppressed and at T0 + 5h is included with the timestamp
refreshed.  (Stored timestamps are `Date.now()` values of earlier cycles,
hence positive; a stored 0 would be JS-falsy and treated as absent.) -/
theorem C3_alert_dedup (alerts : List (String × Nat)) (url : String)
    (issue : Issue) (now t0 : Nat) :
    (alertsGet alerts (alertKey url issue) = none →
       processIssues url now [issue] [] alerts =
         ([(url, issue)], alertsSet alerts (alertKey url issue) now) ∧
       alertsGet (alertsSet alerts (alertKey url issue) now)
         (alertKey url issue) = some now) ∧
    (alertsGet alerts (alertKey url issue) = some t0 → 0 < t0 →
       (COOLDOWN_MS < now - t0 →
          processIssues url now [issue] [] alerts =
            ([(url, issue)], alertsSet alerts (alertKey url issue) now) ∧
          alertsGet (alertsSet alerts (alertKey url issue) now)
            (alertKey url issue) = some now) ∧
       (¬ COOLDOWN_MS < now - t0 →
          processIssues url now [issue] [] alerts = ([], alerts))) ∧
    (alertsGet alerts (alertKey url issue) = some t0 → 0 < t0 →
       (processIssues url (t0 + 3 * 60 * 60 * 1000) [issue] [] alerts).1 = [] ∧
       (processIssues url (t0 + 5 * 60 * 60 * 1000) [issue] [] alerts).1 =
         [(url, issue)] ∧
       alertsGet (processIssues url (t0 + 5 * 60 * 60 * 1000)
           [issue] [] alerts).2 (alertKey url issue) =
         some (t0 + 5 * 60 * 60 * 1000)) := by
  refine ⟨?_, ?_, ?_⟩
  · intro habs
    constructor
    · simp [processIssues, isNewAlert, habs]
    · exact alertsGet_set_self alerts (alertKey url issue) now
  · intro hsome hpos
    have hne : ¬ t0 = 0 := Nat.pos_iff_ne_zero.mp hpos
    constructor
    · intro hcool
      constructor
      · simp [processIssues, isNewAlert, hsome, hne, hcool]
      · exact alertsGet_set_self alerts (alertKey url issue) now
    · intro hcool
      simp [processIssues, isNewAlert, hsome, hne, hcool]
  · intro hsome hpos
    have hne : ¬ t0 = 0 := Nat.pos_iff_ne_zero.mp hpos
    have e3 : t0 + 3 * 60 * 60 * 1000 - t0 = 10800000 := by omega
    have e5 : t0 + 5 * 60 * 60 * 1000 - t0 = 18000000 := by omega
    have h3 : ¬ COOLDOWN_MS < (10800000 : Nat) := by decide
    have h5 : COOLDOWN_MS < (18000000 : Nat) := by decide
    refine ⟨?_, ?_, ?_⟩
    · simp [processIssues, isNewAlert, hsome, hne, e3, h3]
    · simp [processIssues, isNewAlert, hsome, hne, e5, h5]
    · simp [processIssues, isNewAlert, hsome, hne, e5, h5, alertsGet_set_self]

/-- C3 witness: the stored key at T0 = 1000 suppresses the identical issue at
T0 + 3h and admits it at T0 + 5h with the timestamp refreshed. -/
theorem C3_alert_dedup_witness :
    (processIssues "https://a.com" (1000 + 3 * 60 * 60 * 1000)
        [⟨"critical", "t", "d", 1⟩] []
        [(alertKey "https://a.com" ⟨"critical", "t", "d", 1⟩, 1000)]).1 = [] ∧
    (processIssues "https://a.com" (1000 + 5 * 60 * 60 * 1000)
        [⟨"critical", "t", "d", 1⟩] []
        [(alertKey "https://a.com" ⟨"critical", "t", "d", 1⟩, 1000)]).1 =
      [("https://a.com", ⟨"critical", "t", "d", 1⟩)] ∧
    alertsGet (processIssues "https://a.com" (1000 + 5 * 60 * 60 * 1000)
        [⟨"critical", "t", "d", 1⟩] []
        [(alertKey "https://a.com" ⟨"critical", "t", "d", 1⟩, 1000)]).2
      (alertKey "https://a.com" ⟨"critical", "t", "d", 1⟩) =
      some (1000 + 5 * 60 * 60 * 1000) :=
  (C3_alert_dedup
      [(alertKey "https://a.com" ⟨"critical", "t", "d", 1⟩, 1000)]
      "https://a.com" ⟨"critical", "t", "d", 1⟩ 0 1000).2.2
    (by decide) (by decide)

lemma historyAppend_length (h : List HistoryEntry) (e : HistoryEntry) :
    (historyAppend h e).length ≤ 100 := by
  unfold historyAppend
  by_cases hl : (h ++ [e]).length > 100
  · rw [if_pos hl, List.length_drop]
    omega
  · rw [if_neg hl]
    omega

lemma historyAppend_getLast (h : List HistoryEntry) (e : HistoryEntry) :
    (historyAppend h e).getLast? = some e := by
  unfold historyAppend
  by_cases hl : (h ++ [e]).length > 100
  · rw [if_pos hl]
    have hle : (h ++ [e]).length - 100 ≤ h.length := by
      simp only [List.length_append, List.length_cons, List.length_nil] at hl ⊢
      omega
    rw [List.drop_append_of_le_length hle, List.getLast?_concat]
  · rw [if_neg hl, List.getLast?_concat]

set_option maxRecDepth 40000 in
/-- C5: after every monitoring cycle the history holds at most 100 entries;
what it holds is a suffix of the previous history extended by this cycle's
entry (so the most recent cycles, in chronological order, with this cycle's
entry last); `runChecks` persists exactly this truncation; and iterating 150
cycles from an empty history leaves exactly the latest 100 entries. -/
theorem C5_history_bound (h : List HistoryEntry) (e : HistoryEntry)
    (urlResults : List CheckResult) (state : MonitorState) (now : Nat)
    (nowIso : String) :
    (historyAppend h e).length ≤ 100 ∧
    List.IsSuffix (historyAppend h e) (h ++ [e]) ∧
    (historyAppend h e).getLast? = some e ∧
    (runChecks urlResults state now nowIso).1.history =
      historyAppend state.history
        ⟨nowIso, urlResults.map (fun r => (r.url, r.status))⟩ ∧
    ((List.range 150).foldl
        (fun hist i => historyAppend hist ⟨toString i, []⟩) []).length = 100 ∧
    (List.range 150).foldl
        (fun hist i => historyAppend hist ⟨toString i, []⟩) [] =
      ((List.range 150).drop 50).map
        (fun i => (⟨toString i, []⟩ : HistoryEntry)) := by
  refine ⟨historyAppend_length h e, ?_, historyAppend_getLast h e, rfl, by decide, by decide⟩
  unfold historyAppend
  by_cases hl : (h ++ [e]).length > 100
  · rw [if_pos hl]
    exact List.drop_suffix _ _
  · rw [if_neg hl]

/-- SSL certificate info resolved by `Monitor.checkSSL` (monitor.js lines
192-227): validity flag, locale-formatted expiry date, day count until expiry
(`null` when no certificate / no `valid_to`), issuer organisation. -/
structure SSLInfo where
  valid : Bool
  expiryDate : String
  daysUntilExpiry : Option Int
  issuer : String
  deriving DecidableEq

/-- Issues pushed by the HTTP status-code branch of `Monitor.checkUrl`
(monitor.js lines 119-133): status >= 500 gives one critical priority-1
issue, 400 <= status < 500 one error priority-2 issue, else none. -/
def httpStatusIssues (status : Nat) (url hostname nowStr : String) :
    List Issue :=
  if 500 ≤ status then
    [{ type := "critical"
       title := "🔴 ERROR " ++ toString status ++ " en " ++ hostname
       description := "El servidor respondió con error " ++ toString status ++
         ".\n\nURL: " ++ url ++ "\nTiempo: " ++ nowStr
       priority := 1 }]
  else if 400 ≤ status then
    [{ type := "error"
       title := "🟠 ERROR " ++ toString status ++ " en " ++ hostname
       description := "La página respondió con error " ++ toString status ++
         ".\n\nURL: " ++ url ++ "\nTiempo: " ++ nowStr
       priority := 2 }]
  else []

/-- The response-time branch of `Monitor.checkUrl` (monitor.js lines
136-143): a warning priority-3 issue when the measured time strictly exceeds
the configured threshold. -/
def responseTimeIssues (responseTime threshold : Nat)
    (url hostname nowStr : String) : List Issue :=
  if threshold < responseTime then
    [{ type := "warning"
       title := "🟡 Respuesta lenta en " ++ hostname
       description := "El sitio tardó " ++ toString responseTime ++
         "ms en responder (umbral: " ++ toString threshold ++
         "ms).\n\nURL: " ++ url ++ "\nTiempo: " ++ nowStr
       priority := 3 }]
  else []

/-- The whole HTTP check of `Monitor.checkUrl` (monitor.js lines 105-156):
on a completed request the status and response-time issues; on a thrown
request error (`axios.get` rejecting) one critical priority-1 site-down
issue.  `httpOutcome` carries `(status, responseTime)` on completion. -/
def httpCheckIssues (httpOutcome : Except String (Nat × Nat))
    (threshold : Nat) (url hostname nowStr : String) : List Issue :=
  match httpOutcome with
  | Except.ok (status, responseTime) =>
      httpStatusIssues status url hostname nowStr ++
        responseTimeIssues responseTime threshold url hostname nowStr
  | Except.error msg =>
      [{ type := "critical"
         title := "🔴 SITIO CAÍDO: " ++ hostname
         description := "No se pudo conectar al sitio.\n\nURL: " ++ url ++
           "\nError: " ++ msg ++ "\nTiempo: " ++ nowStr
         priority := 1 }]

/-- The SSL-expiry check of `Monitor.checkUrl` (monitor.js lines 159-184):
an expired certificate gives one critical priority-1 issue, one expiring
within the configured day threshold one warning priority-2 issue; a null day
count or a thrown `checkSSL` error produces no issue. -/
def sslCheckIssues (sslOutcome : Except String SSLInfo)
    (thresholdDays : Int) (url nowStr : String) (hostname : String) : List Issue :=
  match sslOutcome with
  | Except.ok info =>
      match info.daysUntilExpiry with
      | some d =>
          if d < 0 then
            [{ type := "critical"
               title := "🔴 CERTIFICADO SSL EXPIRADO: " ++ hostname
               description := "El certificado SSL expiró hace " ++
                 toString d.natAbs ++ " días.\n\nURL: " ++ url ++
                 "\nExpiró: " ++ info.expiryDate ++ "\nTiempo: " ++ nowStr
               priority := 1 }]
          else if d < thresholdDays then
            [{ type := "warning"
               title := "🟡 SSL por expirar: " ++ hostname
               description := "El certificado SSL expira en " ++ toString d ++
                 " días.\n\nURL: " ++ url ++ "\nExpira: " ++ info.expiryDate ++
                 "\nTiempo: " ++ nowStr
               priority := 2 }]
          else []
      | none => []
  | Except.error _ => []

/-- The cycle-status classification of `Monitor.checkUrl` (monitor.js line
187): critical if any critical issue, else warning if any issue, else ok. -/
def statusOf (issues : List Issue) : String :=
  if issues.length > 0 then
    (if issues.any (fun i => i.type == "critical") then "critical"
     else "warning")
  else "ok"

/-- `Monitor.checkUrl` (monitor.js lines 95-190) with the two network
effects embedded by their outcomes: the HTTP check runs when its toggle is
on, the SSL check when its toggle is on and the url is https, and the
result's status classifies the collected issues. -/
def checkUrl (cfg : MonitorConfig) (url hostname nowStr : String)
    (httpOutcome : Except String (Nat × Nat))
    (sslOutcome : Except String SSLInfo) : CheckResult :=
  let issues :=
    (if cfg.checks.httpStatus then
       httpCheckIssues httpOutcome cfg.thresholds.responseTime url hostname nowStr
     else []) ++
    (if cfg.checks.sslExpiry && url.startsWith "https://" then
       sslCheckIssues sslOutcome cfg.thresholds.sslExpiryDays url nowStr hostname
     else [])
  { url := url, status := statusOf issues, issues := issues }

lemma statusOf_of_any_critical (issues : List Issue)
    (h : issues.any (fun i => i.type == "critical") = true) :
    statusOf issues = "critical" := by
  have hne : issues.length > 0 := by
    cases issues with
    | nil => simp [List.any_nil] at h
    | cons i rest => simp
  unfold statusOf
  rw [if_pos hne, if_pos h]

/-- C4: when the HTTP check is enabled and the response status is at least
500 (for instance 503), the status branch emits exactly one issue, which is
critical with priority 1; the per-cycle status is critical if any critical
issue was produced, else warning if any issue at all, else ok; and in
particular such a response makes the whole check's status critical. -/
theorem C4_http_5xx_critical (cfg : MonitorConfig)
    (url hostname nowStr : String) (status responseTime : Nat)
    (sslOutcome : Except String SSLInfo)
    (hcheck : cfg.checks.httpStatus = true) (h5 : 500 ≤ status) :
    (httpStatusIssues status url hostname nowStr).length = 1 ∧
    (∀ i ∈ httpStatusIssues status url hostname nowStr,
       i.type = "critical" ∧ i.priority = 1) ∧
    (∀ issues : List Issue,
       statusOf issues =
         if issues.any (fun i => i.type == "critical") then "critical"
         else if issues.isEmpty then "ok" else "warning") ∧
    (checkUrl cfg url hostname nowStr (Except.ok (status, responseTime))
        sslOutcome).status =
      statusOf (checkUrl cfg url hostname nowStr
        (Except.ok (status, responseTime)) sslOutcome).issues ∧
    (checkUrl cfg url hostname nowStr (Except.ok (status, responseTime))
        sslOutcome).status = "critical" := by
  refine ⟨?_, ?_, ?_, rfl, ?_⟩
  · simp [httpStatusIssues, h5]
  · intro i hi
    simp [httpStatusIssues, h5] at hi
    subst hi
    exact ⟨rfl, rfl⟩
  · intro issues
    cases issues with
    | nil => simp [statusOf]
    | cons i rest =>
        unfold statusOf
        rw [if_pos (by simp)]
        by_cases hc : (i :: rest).any (fun i => i.type == "critical") = true
        · rw [if_pos hc, if_pos hc]
        · rw [if_neg hc, if_neg hc]
          simp
  · show statusOf _ = "critical"
    apply statusOf_of_any_critical
    simp [hcheck, httpCheckIssues, httpStatusIssues, h5]

/-- C4 witness: an HTTP 503 with the default config yields a single
critical priority-1 status issue and a critical cycle status. -/
theorem C4_http_5xx_critical_witness :
    (checkUrl defaultConfig "https://x.com" "x.com" "now"
        (Except.ok (503, 10)) (Except.error "timeout")).status = "critical" :=
  (C4_http_5xx_critical defaultConfig "https://x.com" "x.com" "now" 503 10
      (Except.error "timeout") (by decide) (by decide)).2.2.2.2

/-- The issue object returned by a successful Linear `issueCreate` mutation
(monitor.js lines 296-303). -/
structure CreatedIssue where
  id : String
  identifier : String
  url : String
  title : String
  deriving DecidableEq

/-- `Monitor.sendAlerts` (monitor.js lines 276-328).  The Linear client is
embedded by the per-issue dispatch outcome: `Except.error` is a thrown
`linear.query` (caught and logged per issue, loop continues),
`Except.ok none` a reply with `success: false` (nothing pushed),
`Except.ok (some c)` a created issue appended to the returned list.
`teamConfigured` is the truthiness of `config.teamId`, `linearConfigured`
that of `linear.isConfigured()`. -/
def sendAlerts (teamConfigured linearConfigured : Bool)
    (dispatch : String × Issue → Except String (Option CreatedIssue))
    (issues : List (String × Issue)) : List CreatedIssue :=
  if !teamConfigured then []
  else if !linearConfigured then []
  else
    issues.foldl
      (fun created issue =>
        match dispatch issue with
        | Except.ok (some c) => created ++ [c]
        | Except.ok none => created
        | Except.error _ => created)
      []

/-- `Monitor.monitor` (monitor.js lines 330-342): run the checks (which
persists the updated state), then dispatch the new issues of the cycle, if
any; the returned pair is the persisted state and the created alerts. -/
def monitorRun (urlResults : List CheckResult) (state : MonitorState)
    (now : Nat) (nowIso : String) (teamConfigured linearConfigured : Bool)
    (dispatch : String × Issue → Except String (Option CreatedIssue)) :
    MonitorState × List CreatedIssue :=
  let rc := runChecks urlResults state now nowIso
  (rc.1,
    if rc.2.length > 0 then
      sendAlerts teamConfigured linearConfigured dispatch rc.2
    else [])

lemma sendAlerts_foldl_eq (dispatch : String × Issue → Except String (Option CreatedIssue))
    (issues : List (String × Issue)) (acc : List CreatedIssue) :
    issues.foldl
        (fun created issue =>
          match dispatch issue with
          | Except.ok (some c) => created ++ [c]
          | Except.ok none => created
          | Except.error _ => created)
        acc =
      acc ++ issues.filterMap
        (fun i => match dispatch i with
          | Except.ok (some c) => some c
          | _ => none) := by
  induction issues generalizing acc with
  | nil => simp
  | cons i rest ih =>
      rw [List.foldl_cons, ih]
      cases hd : dispatch i with
      | ok o =>
          cases o with
          | some c => simp [hd]
          | none => simp [hd]
      | error e => simp [hd]

lemma processIssues_refreshed (url : String) (now : Nat) (issues : List Issue)
    (acc : List (String × Issue)) (alerts : List (String × Nat))
    (hacc : ∀ ui ∈ acc,
      alertsGet alerts (alertKey ui.1 ui.2) = some now) :
    ∀ ui ∈ (processIssues url now issues acc alerts).1,
      alertsGet (processIssues url now issues acc alerts).2
        (alertKey ui.1 ui.2) = some now := by
  induction issues generalizing acc alerts with
  | nil => exact hacc
  | cons issue rest ih =>
      by_cases hnew : isNewAlert (alertsGet alerts (alertKey url issue)) now = true
      · rw [show processIssues url now (issue :: rest) acc alerts =
              processIssues url now rest (acc ++ [(url, issue)])
                (alertsSet alerts (alertKey url issue) now) by
            simp [processIssues, hnew]]
        apply ih
        intro ui hui
        rcases List.mem_append.mp hui with hold | hnewm
        · by_cases hk : alertKey ui.1 ui.2 = alertKey url issue
          · rw [hk, alertsGet_set_self]
          · rw [alertsGet_set_other _ _ _ _ hk]
            exact hacc ui hold
        · have : ui = (url, issue) := by simpa using hnewm
          subst this
          rw [alertsGet_set_self]
      · rw [show processIssues url now (issue :: rest) acc alerts =
              processIssues url now rest acc alerts by
            simp [processIssues, hnew]]
        exact ih acc alerts hacc

lemma runChecks_fold_refreshed (urlResults : List CheckResult) (now : Nat)
    (acc : List (String × Issue)) (alerts : List (String × Nat))
    (hacc : ∀ ui ∈ acc, alertsGet alerts (alertKey ui.1 ui.2) = some now) :
    ∀ ui ∈ (urlResults.foldl
        (fun acc r => processIssues r.url now r.issues acc.1 acc.2)
        (acc, alerts)).1,
      alertsGet (urlResults.foldl
        (fun acc r => processIssues r.url now r.issues acc.1 acc.2)
        (acc, alerts)).2 (alertKey ui.1 ui.2) = some now := by
  induction urlResults generalizing acc alerts with
  | nil => exact hacc
  | cons r rest ih =>
      rw [List.foldl_cons]
      have hstep := processIssues_refreshed r.url now r.issues acc alerts hacc
      have hpair : processIssues r.url now r.issues acc alerts =
          ((processIssues r.url now r.issues acc alerts).1,
           (processIssues r.url now r.issues acc alerts).2) := rfl
      rw [hpair]
      exact ih _ _ hstep

/-- C6: dispatch failures are isolated and never roll back the dedup state:
the created-alerts list equals a per-issue filter of the dispatch outcomes
(a thrown dispatch for one issue leaves every other issue's dispatch in
place), the state persisted by a monitoring cycle does not depend on the
dispatcher at all, and every issue of the cycle's batch — dispatched
successfully or not — has its alert-key timestamp already refreshed to `now`
in the persisted state, so it is not retried before the cooldown elapses. -/
theorem C6_dispatch_isolation (urlResults : List CheckResult)
    (state : MonitorState) (now : Nat) (nowIso : String)
    (teamConfigured linearConfigured : Bool)
    (dispatch dispatch2 : String × Issue → Except String (Option CreatedIssue))
    (issues : List (String × Issue)) :
    (sendAlerts teamConfigured linearConfigured dispatch issues =
      if teamConfigured && linearConfigured then
        issues.filterMap
          (fun i => match dispatch i with
            | Except.ok (some c) => some c
            | _ => none)
      else []) ∧
    (monitorRun urlResults state now nowIso teamConfigured linearConfigured
        dispatch).1 = (runChecks urlResults state now nowIso).1 ∧
    (monitorRun urlResults state now nowIso teamConfigured linearConfigured
        dispatch).1 =
      (monitorRun urlResults state now nowIso teamConfigured linearConfigured
        dispatch2).1 ∧
    (∀ ui ∈ (runChecks urlResults state now nowIso).2,
      alertsGet (runChecks urlResults state now nowIso).1.alerts
        (alertKey ui.1 ui.2) = some now) := by
  refine ⟨?_, rfl, rfl, ?_⟩
  · unfold sendAlerts
    cases teamConfigured with
    | false => simp
    | true =>
        cases linearConfigured with
        | false => simp
        | true => simp [sendAlerts_foldl_eq]
  · intro ui hui
    have := runChecks_fold_refreshed urlResults now [] state.alerts
      (by intro ui h; simp at h) ui
    exact this hui

/-- C6 witness: with a dispatcher that throws on the only issue of the
batch, the persisted state equals the one persisted under a dispatcher that
succeeds — the dedup update is not rolled back by the dispatch failure. -/
theorem C6_dispatch_isolation_witness :
    (monitorRun [⟨"https://a.com", "critical",
        [⟨"critical", "t", "d", 1⟩]⟩] defaultState 5 "iso" true true
        (fun _ => Except.error "network down")).1 =
      (monitorRun [⟨"https://a.com", "critical",
        [⟨"critical", "t", "d", 1⟩]⟩] defaultState 5 "iso" true true
        (fun _ => Except.ok (some ⟨"i", "Z-1", "u", "t"⟩))).1 :=
  (C6_dispatch_isolation
      [⟨"https://a.com", "critical", [⟨"critical", "t", "d", 1⟩]⟩]
      defaultState 5 "iso" true true
      (fun _ => Except.error "network down")
      (fun _ => Except.ok (some ⟨"i", "Z-1", "u", "t"⟩)) []).2.2.1

/-- One entry of the recommendation list collected by
`generateLinearReport` (reporter.js lines 173-179): severity, finding name
and the recommendation text. -/
structure RecEntry where
  severity : String
  name : String
  recommendation : String
  deriving DecidableEq

/-- The collection guard and projection of reporter.js lines 172-179:
`if (test.recommendation)` is JS truthiness, false for a missing
recommendation and for the empty string. -/
def recProj (t : Finding) : Option RecEntry :=
  match t.recommendation with
  | some r => if r = "" then none else some ⟨t.severity, t.name, r⟩
  | none => none

/-- The recommendation collection loop of `generateLinearReport`
(reporter.js lines 170-181): push one entry per finding with a truthy
recommendation, in category-then-probe order. -/
def collectRecommendations (rep : Reporter) : List RecEntry :=
  rep.results.foldl (fun acc c => acc ++ c.tests.filterMap recProj) []

/-- `severityOrder` (reporter.js line 184) as a rank.  The five keys of the
source object map to 0..4.  For a severity outside the five the JS
comparator would return NaN — an inconsistent comparison function whose sort
order is implementation-defined; rank 5 stands in for that case, which no
probe of this repository exercises (every severity the test modules produce
is one of the five strings). -/
def severityRank (s : String) : Nat :=
  if s = "critical" then 0
  else if s = "high" then 1
  else if s = "medium" then 2
  else if s = "low" then 3
  else if s = "info" then 4
  else 5

/-- The comparator `(a, b) => severityOrder[a.severity] -
severityOrder[b.severity]` sorts ascending by rank. -/
def recLE (a b : RecEntry) : Prop :=
  severityRank a.severity ≤ severityRank b.severity

instance : DecidableRel recLE := fun a b =>
  Nat.decLe (severityRank a.severity) (severityRank b.severity)

instance : IsTotal RecEntry recLE :=
  ⟨fun a b => Nat.le_total (severityRank a.severity) (severityRank b.severity)⟩

instance : IsTrans RecEntry recLE :=
  ⟨fun _ _ _ hab hbc => Nat.le_trans hab hbc⟩

/-- `recommendations.sort(comparator)` (reporter.js line 185).
`Array.prototype.sort` is stable (ES2019), and all stable sorts by the same
total preorder agree, so the sort is embedded as insertion sort by
`recLE`. -/
def sortedRecommendations (rep : Reporter) : List RecEntry :=
  List.insertionSort recLE (collectRecommendations rep)

lemma collectRecommendations_aux (results : List CategoryResult)
    (acc : List RecEntry) :
    results.foldl (fun acc c => acc ++ c.tests.filterMap recProj) acc =
      acc ++ (results.map CategoryResult.tests).flatten.filterMap recProj := by
  induction results generalizing acc with
  | nil => simp
  | cons c rest ih =>
      rw [List.foldl_cons, ih]
      simp [List.filterMap_append]

lemma filterMap_recProj_eq (tests : List Finding)
    (h : ∀ t ∈ tests, t.recommendation ≠ some "") :
    tests.filterMap recProj =
      (tests.filter (fun t => t.recommendation.isSome)).map
        (fun t => ⟨t.severity, t.name, t.recommendation.getD ""⟩) := by
  induction tests with
  | nil => rfl
  | cons t rest ih =>
      have ht := h t (List.mem_cons_self t rest)
      have hrest : ∀ x ∈ rest, x.recommendation ≠ some "" :=
        fun x hx => h x (List.mem_cons_of_mem t hx)
      cases hr : t.recommendation with
      | none =>
          simp [List.filterMap_cons, List.filter_cons, recProj, hr, ih hrest]
      | some r =>
          have hne : ¬ r = "" := by
            intro he
            exact ht (by rw [hr, he])
          simp [List.filterMap_cons, List.filter_cons, recProj, hr, hne,
            ih hrest]

lemma filter_orderedInsert_sev (a : RecEntry) (l : List RecEntry)
    (s : String) :
    (List.orderedInsert recLE a l).filter (fun r => r.severity == s) =
      if a.severity == s then
        a :: l.filter (fun r => r.severity == s)
      else l.filter (fun r => r.severity == s) := by
  induction l with
  | nil =>
      by_cases ha : a.severity == s
      · simp [List.orderedInsert, List.filter_cons, ha]
      · simp [List.orderedInsert, List.filter_cons, ha]
  | cons b bs ih =>
      by_cases hr : recLE a b
      · rw [List.orderedInsert, if_pos hr]
        by_cases ha : a.severity == s
        · simp [List.filter_cons, ha]
        · simp [List.filter_cons, ha]
      · rw [List.orderedInsert, if_neg hr]
        by_cases hb : b.severity == s
        · by_cases ha : a.severity == s
          · exfalso
            apply hr
            have ha2 : a.severity = s := by simpa using ha
            have hb2 : b.severity = s := by simpa using hb
            unfold recLE
            rw [ha2, hb2]
          · simp [List.filter_cons, hb, ha, ih]
        · simp [List.filter_cons, hb, ih]

lemma filter_insertionSort_sev (l : List RecEntry) (s : String) :
    (List.insertionSort recLE l).filter (fun r => r.severity == s) =
      l.filter (fun r => r.severity == s) := by
  induction l with
  | nil => rfl
  | cons a rest ih =>
      rw [List.insertionSort, filter_orderedInsert_sev]
      by_cases ha : a.severity == s
      · simp [List.filter_cons, ha, ih]
      · simp [List.filter_cons, ha, ih]

/-- C7: the rendered recommendation list holds exactly the findings with a
truthy recommendation (projected to severity/name/recommendation, in
category-then-probe order before sorting), stable-sorted ascending by
severity rank — critical (0) first, then high, medium, low, info (4) last —
with findings of equal severity keeping their original relative order.
The hypotheses restrict to reports the repository's probes can produce:
every severity one of the five ranked strings (an unknown severity would
make the JS comparator inconsistent and the order implementation-defined)
and no empty-string recommendation (JS-falsy, filtered like null). -/
theorem C7_recommendations_sorted (rep : Reporter)
    (_hsev : ∀ f ∈ allFindings rep,
      f.severity ∈ (["critical", "high", "medium", "low", "info"] : List String))
    (hrec : ∀ f ∈ allFindings rep, f.recommendation ≠ some "") :
    collectRecommendations rep =
      ((allFindings rep).filter (fun t => t.recommendation.isSome)).map
        (fun t => ⟨t.severity, t.name, t.recommendation.getD ""⟩) ∧
    List.Perm (sortedRecommendations rep) (collectRecommendations rep) ∧
    List.Sorted recLE (sortedRecommendations rep) ∧
    (∀ s, (sortedRecommendations rep).filter (fun r => r.severity == s) =
      (collectRecommendations rep).filter (fun r => r.severity == s)) := by
  refine ⟨?_, ?_, ?_, ?_⟩
  · unfold collectRecommendations
    rw [collectRecommendations_aux]
    have hall : (List.map CategoryResult.tests rep.results).flatten =
        allFindings rep := rfl
    rw [hall, filterMap_recProj_eq _ hrec]
    simp
  · exact List.perm_insertionSort recLE (collectRecommendations rep)
  · exact List.sorted_insertionSort recLE (collectRecommendations rep)
  · intro s
    exact filter_insertionSort_sev (collectRecommendations rep) s

/-- Example report for the C7 witness: two categories, recommendations with
severities low, critical, low — the sort puts critical first and keeps the
two low entries in their original relative order. -/
def repC7ex : Reporter :=
  { url := "https://example.com"
    startTime := some 0
    endTime := some 1000
    results :=
      [⟨"cat1", [⟨"A", "fail", "v", "d", "low", some "fix A"⟩,
                 ⟨"B", "fail", "v", "d", "critical", some "fix B"⟩]⟩,
       ⟨"cat2", [⟨"C", "warning", "v", "d", "low", some "fix C"⟩,
                 ⟨"D", "pass", "v", "d", "info", none⟩]⟩] }

/-- C7 witness: on the example report the equal-severity (low) entries of
the sorted recommendation list keep their original relative order. -/
theorem C7_recommendations_sorted_witness :
    (sortedRecommendations repC7ex).filter (fun r => r.severity == "low") =
      (collectRecommendations repC7ex).filter (fun r => r.severity == "low") :=
  (C7_recommendations_sorted repC7ex (by decide) (by decide)).2.2.2 "low"

/-- `Reporter.getSeverityEmoji` (reporter.js lines 28-37), with the object
lookup's `|| '⚪'` default. -/
def getSeverityEmoji (severity : String) : String :=
  if severity = "critical" then "🔴"
  else if severity = "high" then "🟠"
  else if severity = "medium" then "🟡"
  else if severity = "low" then "🔵"
  else if severity = "info" then "⚪"
  else "⚪"

/-- `Reporter.getStatusEmoji` (reporter.js lines 39-47), with the object
lookup's `|| '❓'` default. -/
def getStatusEmoji (status : String) : String :=
  if status = "pass" then "✅"
  else if status = "fail" then "❌"
  else if status = "warning" then "⚠️"
  else if status = "info" then "ℹ️"
  else "❓"

/-- JS `s.substring(0, n)` on the char level (reporter.js truncates `value`
to 30 and `details` to 50 characters for the detail table). -/
def takeChars (s : String) (n : Nat) : String :=
  String.mk (s.data.take n)

/-- JS `s.replace(/\n/g, ' ')` (reporter.js line 156). -/
def replaceNewlines (s : String) : String :=
  String.mk (s.data.map (fun c => if c = '\n' then ' ' else c))

/-- The duration string of `generateLinearReport` (reporter.js lines 67-69):
`((endTime - startTime) / 1000).toFixed(1)` when both timestamps are set,
`'?'` otherwise.  Embedded as decimal rounding of the millisecond difference
to one decimal place, which matches `toFixed(1)` up to the binary-float
representation of the quotient at exact half-tenths. -/
def durationStr (rep : Reporter) : String :=
  match rep.endTime, rep.startTime with
  | some e, some s =>
      let tenths := (e - s + 50) / 100
      toString (tenths / 10) ++ "." ++ toString (tenths % 10)
  | _, _ => "?"

/-- The finding-with-category objects built in reporter.js lines 101-112
(`{ category: category.name, ...test }`), in category-then-probe order. -/
def findingsWithCategory (rep : Reporter) : List (String × Finding) :=
  rep.results.foldl (fun acc c => acc ++ c.tests.map (fun t => (c.name, t))) []

/-- One bullet of a headline findings section (reporter.js lines 116-119):
the recommendation sub-bullet appears only when truthy. -/
def findingLine (f : String × Finding) : String :=
  "- **" ++ f.2.name ++ "**: " ++ f.2.details ++ "\n" ++
  (match f.2.recommendation with
   | some r => if r = "" then "" else "  - 💡 *Recomendación:* " ++ r ++ "\n"
   | none => "")

/-- One headline section (reporter.js lines 114-139): rendered only when its
bucket is nonempty, followed by a blank line. -/
def findingsSection (header : String) (fs : List (String × Finding)) : String :=
  if fs.length > 0 then header ++ String.join (fs.map findingLine) ++ "\n"
  else ""

/-- One row of the per-category detail table (reporter.js lines 153-158). -/
def categoryRow (t : Finding) : String :=
  "| " ++ t.name ++ " | " ++ getStatusEmoji t.status ++ " | " ++
  takeChars t.value 30 ++ " | " ++
  replaceNewlines (takeChars t.details 50) ++ "... |\n"

/-- One per-category detail block (reporter.js lines 148-161). -/
def categorySection (c : CategoryResult) : String :=
  "### " ++ c.name ++
  "\n\n| Test | Estado | Valor | Detalles |\n|------|--------|-------|----------|\n" ++
  String.join (c.tests.map categoryRow) ++ "\n"

/-- The numbered recommendation lines (reporter.js lines 188-191),
numbering from 1. -/
def recLines : Nat → List RecEntry → String
  | _, [] => ""
  | i, r :: rest =>
      toString i ++ ". " ++ getSeverityEmoji r.severity ++ " **" ++
        r.name ++ "**: " ++ r.recommendation ++ "\n" ++ recLines (i + 1) rest

/-- The recommendations section body (reporter.js lines 187-194). -/
def recommendationsSection (recs : List RecEntry) : String :=
  if recs.length > 0 then recLines 1 recs
  else "¡No hay recomendaciones pendientes! El sitio parece estar bien configurado.\n"

/-- Everything `generateLinearReport` emits before the render-time clock
string (reporter.js lines 71-74). -/
def reportHead (rep : Reporter) : String :=
  "# 🔍 Reporte de Seguridad y Testing Web\n\n**URL Analizada:** " ++
  rep.url ++ "\n**Fecha:** "

/-- Everything `generateLinearReport` emits after the render-time clock
string (reporter.js lines 75-207): duration, executive summary table,
headline findings by severity bucket (critical, high, medium; lower buckets
appear only in the detail tables), per-category detail, sorted
recommendation list, and the Linear notes footer. -/
def reportTail (rep : Reporter) : String :=
  let summary := getSummary rep
  let fs := findingsWithCategory rep
  "\n**Duración del Análisis:** " ++ durationStr rep ++
  " segundos\n\n---\n\n## 📊 Resumen Ejecutivo\n\n| Severidad | Cantidad |\n|-----------|----------|\n| 🔴 Crítico | " ++
  toString summary.critical ++ " |\n| 🟠 Alto | " ++
  toString summary.high ++ " |\n| 🟡 Medio | " ++
  toString summary.medium ++ " |\n| 🔵 Bajo | " ++
  toString summary.low ++ " |\n| ✅ Pasados | " ++
  toString summary.passed ++
  " |\n\n---\n\n## 🎯 Hallazgos Principales\n\n" ++
  findingsSection "### 🔴 Problemas Críticos\n\n"
    (fs.filter (fun f => f.2.severity = "critical")) ++
  findingsSection "### 🟠 Problemas de Alta Prioridad\n\n"
    (fs.filter (fun f => f.2.severity = "high")) ++
  findingsSection "### 🟡 Problemas de Prioridad Media\n\n"
    (fs.filter (fun f => f.2.severity = "medium")) ++
  "---\n\n## 📋 Detalle por Categoría\n\n" ++
  String.join (rep.results.map categorySection) ++
  "---\n\n## 🛠️ Recomendaciones de Acción\n\n" ++
  recommendationsSection (sortedRecommendations rep) ++
  "\n---\n\n## 📝 Notas para Linear\n\n**Labels sugeridos:** `security`, `testing`, `web`\n**Prioridad sugerida:** " ++
  (if summary.critical > 0 then "Urgent"
   else if summary.high > 0 then "High"
   else if summary.medium > 0 then "Medium"
   else "Low") ++
  "\n\n---\n\n*Reporte generado automáticamente por WebTester v1.0*\n"

/-- `Reporter.generateLinearReport` (reporter.js lines 65-210).  The
markdown document is a pure function of the accumulated report and of the
render-time clock reading `nowStr` (`new Date().toLocaleString('es-ES')`,
line 74), which is the only render-time input. -/
def generateLinearReport (rep : Reporter) (nowStr : String) : String :=
  reportHead rep ++ nowStr ++ reportTail rep

/-- `Reporter.copyToClipboard` (reporter.js lines 279-282): returns the
markdown report unchanged. -/
def copyToClipboard (rep : Reporter) (nowStr : String) : String :=
  generateLinearReport rep nowStr

/-- Example frozen report for the C8 counterexample. -/
def repC8ex : Reporter :=
  { url := "https://example.com"
    startTime := some 0
    endTime := some 1500
    results := [⟨"cat", [⟨"A", "pass", "v", "d", "info", none⟩]⟩] }

/-- C8 (counterexample): rendering the same frozen report twice does not
yield byte-identical output when the wall clock has advanced between the two
renders — the `Fecha` line embeds the render-time
`new Date().toLocaleString('es-ES')`, not frozen state. -/
theorem C8_counterexample :
    generateLinearReport repC8ex "4/10/2026, 10:00:00" ≠
      generateLinearReport repC8ex "4/10/2026, 10:00:01" := by
  decide

/-- C8 (amended): the markdown render is a pure projection of the frozen
report plus the render-time clock string; no state is mutated, and two
renders of the same frozen report are byte-identical exactly when their
locale-formatted clock readings coincide (so re-rendering within the same
clock instant is idempotent, and `copyToClipboard` returns the identical
document). -/
theorem C8_render_deterministic (rep : Reporter) (t1 t2 : String) :
    (generateLinearReport rep t1 = generateLinearReport rep t2 ↔ t1 = t2) ∧
    copyToClipboard rep t1 = generateLinearReport rep t1 := by
  refine ⟨⟨?_, ?_⟩, rfl⟩
  · intro h
    have hd := congrArg String.data h
    simp only [generateLinearReport, String.data_append] at hd
    rw [List.append_assoc, List.append_assoc] at hd
    have h1 := List.append_cancel_left hd
    have h2 := List.append_cancel_right h1
    cases t1
    cases t2
    exact congrArg String.mk h2
  · intro h
    rw [h]
